import Mathlib

/-!
Shallow embedding of the authentication / authorization core of the
roadmap Flask backend (`src/app.py`, `src/config.py`), with proofs of
the specified properties.

Modelling conventions:
* MongoDB collections become in-memory lists; `find_one(q)` becomes
  `List.find?` with the query predicate, `update_one` / `delete_one`
  update or erase the first matching document.
* External collaborators (bcrypt hashing/verification, ObjectId and jti
  generation) are injected as function / value parameters.
* JWT decoding by the `flask_jwt_extended` (4.x API) layer is modelled by
  a `TokenPresentation`: the framework either rejects the request (missing
  or undecodable token) or hands the handler the decoded claims of a token
  that passed the whole verification, including the access-type check.
  Routes decorated with bare `@jwt_required()` are modelled over a
  `TypedTokenPresentation` that keeps the token's `type` claim visible,
  because without `refresh=True` the decorator rejects refresh-type tokens
  with 422 before the handler runs.
* The process-global revocation blacklist (`token_blacklist = set()`)
  is a `Finset String` carried in an explicit `ServerState`, which also
  holds the user and roadmap collections and the db-availability flag.
* Timestamp fields (`created_at`, `updated_at`) and purely cosmetic
  response fields are elided: no claim mentions them.
-/

namespace RoadmapApp

/-- Decoded JWT claims used by the core: subject (user id as string),
the free-form role claim, and the unique token identifier. -/
structure Claims where
  sub : String
  role : String
  jti : String
  deriving DecidableEq

/-- What the framework layer hands a handler protected by
`token_required` / `admin_required`: either no/bad token (rejected before
the handler runs) or the decoded claims.  `valid claims` is a token that
passed the whole `verify_jwt_in_request()` of the inner `@jwt_required()`,
including its access-type verification: refresh-type tokens are rejected
with 422 upstream and never reach the revocation or role checks (and the
only jtis the app ever revokes are access-token jtis, because logout
itself sits behind the same access-only verification). -/
inductive TokenPresentation where
  | missing
  | invalid
  | valid (claims : Claims)
  deriving DecidableEq

/-- What arrives at a route decorated with bare `@jwt_required()`
(logout, line 582, and refresh, line 625), keeping the token's `type`
claim visible: flask_jwt_extended 4.x (the API the source imports)
verifies it and rejects refresh-type tokens unless the decorator was
given `refresh=True` — which the source never passes. -/
inductive TypedTokenPresentation where
  | missing
  | invalid
  | validAccess (claims : Claims)
  | validRefresh (claims : Claims)
  deriving DecidableEq

/-- A handler outcome: an error response `(status, message)` or a payload. -/
inductive HResp (α : Type) where
  | err (status : Nat) (msg : String)
  | ok (payload : α)
  deriving DecidableEq

/-- The punctuation set of `validate_password`'s special-character rule,
from the regex character class in src/app.py line 62. -/
def specialChars : List Char :=
  ['!', '@', '#', '$', '%', '^', '&', '*', '(', ')', ',', '.', '?',
   '\"', ':', '\x7b', '\x7d', '|', '<', '>']

/-- `validate_password` (src/app.py lines 52-64).  The regex searches
`[A-Z]`, `[a-z]`, `\d`, and the punctuation class are per-character
tests over the string. -/
def validate_password (password : String) : Bool × String :=
  if password.length < 8 then
    (false, "Password must be at least 8 characters long")
  else if ! password.toList.any (fun c => 'A' ≤ c && c ≤ 'Z') then
    (false, "Password must contain at least one uppercase letter")
  else if ! password.toList.any (fun c => 'a' ≤ c && c ≤ 'z') then
    (false, "Password must contain at least one lowercase letter")
  else if ! password.toList.any (fun c => '0' ≤ c && c ≤ '9') then
    (false, "Password must contain at least one digit")
  else if ! password.toList.any (fun c => specialChars.contains c) then
    (false, "Password must contain at least one special character")
  else
    (true, "Password is valid")

/-- Stored user document (src/app.py lines 504-511); `password` holds the
opaque bcrypt digest.  Timestamp fields are elided (no claim mentions them). -/
structure User where
  id : String
  username : String
  email : String
  password : String
  role : String
  deriving DecidableEq

/-- Roadmap node; only the fields the core logic reads (`id`, `completed`). -/
structure Node where
  id : String
  completed : Bool
  deriving DecidableEq

/-- Roadmap document; the fields the access-control logic reads, plus nodes. -/
structure Roadmap where
  id : String
  created_by : String
  is_public : Bool
  nodes : List Node
  deriving DecidableEq

/-- The process state: db availability (`db = None` check in every handler),
the two Mongo collections, and the global `token_blacklist` set. -/
structure ServerState where
  db : Bool
  users : List User
  roadmaps : List Roadmap
  blacklist : Finset String
  deriving DecidableEq

/-- A signed token as the core sees it: subject and role claims.  The jti,
timestamps and signature are produced by the JWT collaborator and are not
inspected by any handler after issuance. -/
structure IssuedToken where
  sub : String
  role : String
  deriving DecidableEq

/-- User dict as serialized in responses (password stripped). -/
structure UserOut where
  id : String
  username : String
  email : String
  role : String
  deriving DecidableEq

/-- `create_access_token(identity, additional_claims={role})`. -/
def create_access_token (identity : String) (role : String) : IssuedToken :=
  ⟨identity, role⟩

/-- `create_refresh_token(identity, additional_claims={role})`. -/
def create_refresh_token (identity : String) (role : String) : IssuedToken :=
  ⟨identity, role⟩

/-- `generate_tokens` (src/app.py lines 76-80). -/
def generate_tokens (user_id : String) (role : String) : IssuedToken × IssuedToken :=
  (create_access_token user_id role, create_refresh_token user_id role)

/-- `revoke_token` (src/app.py lines 82-84): `token_blacklist.add(jti)`. -/
def revoke_token (jti : String) (blacklist : Finset String) : Finset String :=
  insert jti blacklist

/-- `is_token_revoked` (src/app.py lines 86-89): jti membership in the set. -/
def is_token_revoked (blacklist : Finset String) (payload : Claims) : Bool :=
  decide (payload.jti ∈ blacklist)

/-- `token_required` (src/app.py lines 92-102): `@jwt_required()` rejects
missing/undecodable tokens (framework messages), then the revocation check,
then the wrapped handler runs with `current_user = get_jwt_identity()`. -/
def token_required {α : Type} (tok : TokenPresentation)
    (f : Claims → ServerState → HResp α × ServerState)
    (st : ServerState) : HResp α × ServerState :=
  match tok with
  | .missing => (.err 401 "Missing Authorization Header", st)
  | .invalid => (.err 401 "Invalid or expired token", st)
  | .valid claims =>
    if is_token_revoked st.blacklist claims then
      (.err 401 "Token has been revoked", st)
    else
      f claims st

/-- `admin_required` (src/app.py lines 105-116): like `token_required` but
additionally requires `claims['role'] == 'admin'`; the handler receives no
identity argument. -/
def admin_required {α : Type} (tok : TokenPresentation)
    (f : ServerState → HResp α × ServerState)
    (st : ServerState) : HResp α × ServerState :=
  match tok with
  | .missing => (.err 401 "Missing Authorization Header", st)
  | .invalid => (.err 401 "Invalid or expired token", st)
  | .valid claims =>
    if is_token_revoked st.blacklist claims then
      (.err 401 "Token has been revoked", st)
    else if claims.role != "admin" then
      (.err 403 "Admin access required", st)
    else
      f st

/-- Bare `@jwt_required()` (used on logout, line 582, and refresh, line
625): decode gating plus flask_jwt_extended's token-type verification —
without `refresh=True` a refresh-type token raises `WrongTokenError`
("Only non-refresh tokens are allowed", 422) before the view function
runs.  No revocation check happens on this path: no
`token_in_blocklist_loader` is registered anywhere in the source. -/
def jwt_required {α : Type} (tok : TypedTokenPresentation)
    (f : Claims → ServerState → HResp α × ServerState)
    (st : ServerState) : HResp α × ServerState :=
  match tok with
  | .missing => (.err 401 "Missing Authorization Header", st)
  | .invalid => (.err 401 "Invalid or expired token", st)
  | .validRefresh _ => (.err 422 "Only non-refresh tokens are allowed", st)
  | .validAccess claims => f claims st

/-- Replace the first element satisfying `p` (Mongo `update_one` semantics). -/
def updateFirst {α : Type} (p : α → Bool) (f : α → α) : List α → List α
  | [] => []
  | a :: l => if p a then f a :: l else a :: updateFirst p f l

/-- ASCII lowering of one character (`str.lower` restricted to the ASCII
range, which is all the core compares against). -/
def lowerChar (c : Char) : Char :=
  if 'A' ≤ c && c ≤ 'Z' then Char.ofNat (c.toNat + 32) else c

/-- Python `str.lower()`. -/
def lower (s : String) : String := ⟨s.toList.map lowerChar⟩

/-- Python `str.strip()`: drop leading and trailing whitespace. -/
def strip (s : String) : String :=
  ⟨((s.toList.dropWhile Char.isWhitespace).reverse.dropWhile Char.isWhitespace).reverse⟩

/-- Signup request body after the required-field presence checks
(`username`/`email`/`password` required, `role` optional). -/
structure SignupBody where
  username : String
  email : String
  password : String
  role : Option String
  deriving DecidableEq

/-- Login request body after the required-field presence checks. -/
structure LoginBody where
  email : String
  password : String
  deriving DecidableEq

/-- Roadmap creation body after the required-field presence checks; only the
fields the core logic branches on (`nodes`, optional `is_public`). -/
structure RoadmapData where
  is_public : Option Bool
  nodes : List Node
  deriving DecidableEq

/-- `signup` (src/app.py lines 455-532).  `hashpw` injects
`bcrypt.hashpw(·, gensalt())` for this call, `new_id` the generated
ObjectId.  The route has no authentication decorator: the function takes
no token or claims. -/
def signup (hashpw : String → String) (new_id : String) (body : SignupBody)
    (st : ServerState) : HResp (UserOut × IssuedToken × IssuedToken) × ServerState :=
  if ! st.db then (.err 503 "Database connection not available", st)
  else
    let username := strip body.username
    let email := lower (strip body.email)
    let password := body.password
    if username.length < 3 then
      (.err 400 "Username must be at least 3 characters long", st)
    else if email.length < 5 || ! email.toList.contains '@' then
      (.err 400 "Valid email is required", st)
    else if ! (validate_password password).1 then
      (.err 400 (validate_password password).2, st)
    else
      match st.users.find? (fun u => u.username == username || u.email == email) with
      | some existing_user =>
        if existing_user.username == username then
          (.err 409 "Username already exists", st)
        else
          (.err 409 "Email already exists", st)
      | none =>
        let user_doc : User :=
          ⟨new_id, username, email, hashpw password, body.role.getD "user"⟩
        let toks := generate_tokens new_id user_doc.role
        (.ok (⟨new_id, username, email, user_doc.role⟩, toks),
         { st with users := st.users ++ [user_doc] })

/-- `login` (src/app.py lines 534-579).  `checkpw` injects `bcrypt.checkpw`. -/
def login (checkpw : String → String → Bool) (body : LoginBody)
    (st : ServerState) : HResp (UserOut × IssuedToken × IssuedToken) × ServerState :=
  if ! st.db then (.err 503 "Database connection not available", st)
  else
    let email := lower (strip body.email)
    match st.users.find? (fun u => u.email == email) with
    | none => (.err 401 "Invalid email or password", st)
    | some user =>
      if ! checkpw body.password user.password then
        (.err 401 "Invalid email or password", st)
      else
        (.ok (⟨user.id, user.username, user.email, user.role⟩,
              generate_tokens user.id user.role), st)

/-- `logout` handler body (src/app.py lines 581-593): revoke the presented
token's jti. -/
def logout (claims : Claims) (st : ServerState) : HResp String × ServerState :=
  (.ok "Successfully logged out",
   { st with blacklist := revoke_token claims.jti st.blacklist })

/-- `refresh_token` handler body (src/app.py lines 624-654): re-fetch the
user and issue a new access token with the *stored* role.  Note: no
revocation check anywhere on this path (the route uses bare
`@jwt_required()`). -/
def refresh_token (claims : Claims) (st : ServerState) :
    HResp IssuedToken × ServerState :=
  if ! st.db then (.err 503 "Database connection not available", st)
  else
    match st.users.find? (fun u => u.id == claims.sub) with
    | none => (.err 404 "User not found", st)
    | some user => (.ok (create_access_token claims.sub user.role), st)

/-- `get_profile` handler body (src/app.py lines 595-622). -/
def get_profile (claims : Claims) (st : ServerState) : HResp UserOut × ServerState :=
  if ! st.db then (.err 503 "Database connection not available", st)
  else
    match st.users.find? (fun u => u.id == claims.sub) with
    | none => (.err 404 "User not found", st)
    | some user => (.ok ⟨user.id, user.username, user.email, user.role⟩, st)

/-- `get_roadmaps` handler body (src/app.py lines 132-165): public + own
roadmaps, or everything for admins. -/
def get_roadmaps (claims : Claims) (st : ServerState) :
    HResp (List Roadmap) × ServerState :=
  if ! st.db then (.err 503 "Database connection not available", st)
  else if claims.role == "admin" then (.ok st.roadmaps, st)
  else
    (.ok (st.roadmaps.filter (fun r => r.is_public || r.created_by == claims.sub)), st)

/-- `create_roadmap` handler body (src/app.py lines 167-215). -/
def create_roadmap (claims : Claims) (new_id : String) (data : RoadmapData)
    (st : ServerState) : HResp String × ServerState :=
  if ! st.db then (.err 503 "Database connection not available", st)
  else if data.nodes.isEmpty then
    (.err 400 "Nodes must be a non-empty array", st)
  else
    let doc : Roadmap :=
      ⟨new_id, claims.sub, data.is_public.getD false,
       data.nodes.map (fun n => { n with completed := false })⟩
    (.ok new_id, { st with roadmaps := st.roadmaps ++ [doc] })

/-- `get_roadmap` handler body (src/app.py lines 217-248): the Mongo query
matches on `_id` and, for non-admins, additionally `is_public` or ownership. -/
def get_roadmap (claims : Claims) (roadmap_id : String) (st : ServerState) :
    HResp Roadmap × ServerState :=
  if ! st.db then (.err 503 "Database connection not available", st)
  else
    match st.roadmaps.find? (fun r =>
        r.id == roadmap_id &&
        (claims.role == "admin" || (r.is_public || r.created_by == claims.sub))) with
    | none => (.err 404 "Roadmap not found or access denied", st)
    | some roadmap => (.ok roadmap, st)

/-- `update_roadmap` handler body (src/app.py lines 250-286).  `patch`
abstracts the `$set data` document rewrite. -/
def update_roadmap (claims : Claims) (roadmap_id : String)
    (patch : Roadmap → Roadmap) (st : ServerState) : HResp String × ServerState :=
  if ! st.db then (.err 503 "Database connection not available", st)
  else
    match st.roadmaps.find? (fun r => r.id == roadmap_id) with
    | none => (.err 404 "Roadmap not found", st)
    | some roadmap =>
      if roadmap.created_by != claims.sub && claims.role != "admin" then
        (.err 403 "Access denied. Only owner or admin can update roadmap", st)
      else
        (.ok "Roadmap updated successfully",
         { st with roadmaps := updateFirst (fun r => r.id == roadmap_id) patch st.roadmaps })

/-- `delete_roadmap` handler body (src/app.py lines 288-313). -/
def delete_roadmap (claims : Claims) (roadmap_id : String)
    (st : ServerState) : HResp String × ServerState :=
  if ! st.db then (.err 503 "Database connection not available", st)
  else
    match st.roadmaps.find? (fun r => r.id == roadmap_id) with
    | none => (.err 404 "Roadmap not found", st)
    | some roadmap =>
      if roadmap.created_by != claims.sub && claims.role != "admin" then
        (.err 403 "Access denied. Only owner or admin can delete roadmap", st)
      else
        (.ok "Roadmap deleted successfully",
         { st with roadmaps := st.roadmaps.eraseP (fun r => r.id == roadmap_id) })

/-- `toggle_node_completion` handler body (src/app.py lines 317-372). -/
def toggle_node_completion (claims : Claims) (roadmap_id node_id : String)
    (st : ServerState) : HResp (Option Node) × ServerState :=
  if ! st.db then (.err 503 "Database connection not available", st)
  else
    match st.roadmaps.find? (fun r => r.id == roadmap_id) with
    | none => (.err 404 "Roadmap not found", st)
    | some roadmap =>
      if !roadmap.is_public && roadmap.created_by != claims.sub && claims.role != "admin" then
        (.err 403 "Access denied", st)
      else if ! roadmap.nodes.any (fun n => n.id == node_id) then
        (.err 404 "Node not found", st)
      else
        let newNodes := updateFirst (fun n => n.id == node_id)
          (fun n => { n with completed := !n.completed }) roadmap.nodes
        let newRoadmaps := updateFirst (fun r => r.id == roadmap_id)
          (fun r => { r with nodes := newNodes }) st.roadmaps
        (.ok (newNodes.find? (fun n => n.id == node_id)),
         { st with roadmaps := newRoadmaps })

/-- `get_all_roadmaps_admin` handler body (src/app.py lines 414-433). -/
def get_all_roadmaps_admin (st : ServerState) : HResp (List Roadmap) × ServerState :=
  if ! st.db then (.err 503 "Database connection not available", st)
  else (.ok st.roadmaps, st)

/-- `force_delete_roadmap` handler body (src/app.py lines 435-451). -/
def force_delete_roadmap (roadmap_id : String) (st : ServerState) :
    HResp String × ServerState :=
  if ! st.db then (.err 503 "Database connection not available", st)
  else if ! st.roadmaps.any (fun r => r.id == roadmap_id) then
    (.err 404 "Roadmap not found", st)
  else
    (.ok "Roadmap force deleted successfully by admin",
     { st with roadmaps := st.roadmaps.eraseP (fun r => r.id == roadmap_id) })

/-- `get_all_users` handler body (src/app.py lines 656-675): every user,
passwords stripped. -/
def get_all_users (st : ServerState) : HResp (List UserOut) × ServerState :=
  if ! st.db then (.err 503 "Database connection not available", st)
  else (.ok (st.users.map (fun u => ⟨u.id, u.username, u.email, u.role⟩)), st)

/-- The routes as deployed: each handler wrapped in its decorator from the
source. -/
def ep_logout (tok : TypedTokenPresentation) : ServerState → HResp String × ServerState :=
  jwt_required tok logout

/-- `/api/auth/refresh`, decorated only with `@jwt_required()` (no
`refresh=True`, no revocation check). -/
def ep_refresh (tok : TypedTokenPresentation) : ServerState → HResp IssuedToken × ServerState :=
  jwt_required tok refresh_token

/-- `/api/auth/profile` behind `token_required`. -/
def ep_get_profile (tok : TokenPresentation) : ServerState → HResp UserOut × ServerState :=
  token_required tok get_profile

/-- `GET /api/roadmaps` behind `token_required`. -/
def ep_get_roadmaps (tok : TokenPresentation) : ServerState → HResp (List Roadmap) × ServerState :=
  token_required tok get_roadmaps

/-- `POST /api/roadmaps` behind `token_required`. -/
def ep_create_roadmap (tok : TokenPresentation) (new_id : String) (data : RoadmapData) :
    ServerState → HResp String × ServerState :=
  token_required tok (fun c => create_roadmap c new_id data)

/-- `GET /api/roadmaps/<id>` behind `token_required`. -/
def ep_get_roadmap (tok : TokenPresentation) (roadmap_id : String) :
    ServerState → HResp Roadmap × ServerState :=
  token_required tok (fun c => get_roadmap c roadmap_id)

/-- `PUT /api/roadmaps/<id>` behind `token_required`. -/
def ep_update_roadmap (tok : TokenPresentation) (roadmap_id : String)
    (patch : Roadmap → Roadmap) : ServerState → HResp String × ServerState :=
  token_required tok (fun c => update_roadmap c roadmap_id patch)

/-- `DELETE /api/roadmaps/<id>` behind `token_required`. -/
def ep_delete_roadmap (tok : TokenPresentation) (roadmap_id : String) :
    ServerState → HResp String × ServerState :=
  token_required tok (fun c => delete_roadmap c roadmap_id)

/-- `PUT /api/roadmaps/<id>/nodes/<nid>/toggle` behind `token_required`. -/
def ep_toggle_node (tok : TokenPresentation) (roadmap_id node_id : String) :
    ServerState → HResp (Option Node) × ServerState :=
  token_required tok (fun c => toggle_node_completion c roadmap_id node_id)

/-- `GET /api/admin/roadmaps` behind `admin_required`. -/
def ep_admin_roadmaps (tok : TokenPresentation) :
    ServerState → HResp (List Roadmap) × ServerState :=
  admin_required tok get_all_roadmaps_admin

/-- `GET /api/auth/admin/users` behind `admin_required`. -/
def ep_admin_users (tok : TokenPresentation) :
    ServerState → HResp (List UserOut) × ServerState :=
  admin_required tok get_all_users

/-- `DELETE /api/admin/roadmaps/<id>/force` behind `admin_required`. -/
def ep_force_delete (tok : TokenPresentation) (roadmap_id : String) :
    ServerState → HResp String × ServerState :=
  admin_required tok (force_delete_roadmap roadmap_id)

/-- One inbound request to any route of the app (reads included; the
read-only handlers issue only find queries and never write state). -/
inductive Op where
  | opSignup (hashpw : String → String) (new_id : String) (body : SignupBody)
  | opLogin (checkpw : String → String → Bool) (body : LoginBody)
  | opLogout (tok : TypedTokenPresentation)
  | opRefresh (tok : TypedTokenPresentation)
  | opGetProfile (tok : TokenPresentation)
  | opGetRoadmaps (tok : TokenPresentation)
  | opCreateRoadmap (tok : TokenPresentation) (new_id : String) (data : RoadmapData)
  | opGetRoadmap (tok : TokenPresentation) (roadmap_id : String)
  | opUpdateRoadmap (tok : TokenPresentation) (roadmap_id : String) (patch : Roadmap → Roadmap)
  | opDeleteRoadmap (tok : TokenPresentation) (roadmap_id : String)
  | opToggleNode (tok : TokenPresentation) (roadmap_id node_id : String)
  | opAdminRoadmaps (tok : TokenPresentation)
  | opAdminUsers (tok : TokenPresentation)
  | opForceDelete (tok : TokenPresentation) (roadmap_id : String)

/-- State transition of one request: the response is discarded, the
resulting server state kept. -/
def applyOp (op : Op) (st : ServerState) : ServerState :=
  match op with
  | .opSignup hashpw new_id body => (signup hashpw new_id body st).2
  | .opLogin checkpw body => (login checkpw body st).2
  | .opLogout tok => (ep_logout tok st).2
  | .opRefresh tok => (ep_refresh tok st).2
  | .opGetProfile tok => (ep_get_profile tok st).2
  | .opGetRoadmaps tok => (ep_get_roadmaps tok st).2
  | .opCreateRoadmap tok new_id data => (ep_create_roadmap tok new_id data st).2
  | .opGetRoadmap tok roadmap_id => (ep_get_roadmap tok roadmap_id st).2
  | .opUpdateRoadmap tok roadmap_id patch => (ep_update_roadmap tok roadmap_id patch st).2
  | .opDeleteRoadmap tok roadmap_id => (ep_delete_roadmap tok roadmap_id st).2
  | .opToggleNode tok roadmap_id node_id => (ep_toggle_node tok roadmap_id node_id st).2
  | .opAdminRoadmaps tok => (ep_admin_roadmaps tok st).2
  | .opAdminUsers tok => (ep_admin_users tok st).2
  | .opForceDelete tok roadmap_id => (ep_force_delete tok roadmap_id st).2

/-- Run a sequence of requests. -/
def applyAll (ops : List Op) (st : ServerState) : ServerState :=
  ops.foldl (fun s op => applyOp op s) st

/-! ### Helper lemmas -/

theorem signup_blacklist (hashpw : String → String) (new_id : String)
    (body : SignupBody) (st : ServerState) :
    (signup hashpw new_id body st).2.blacklist = st.blacklist := by
  unfold signup
  repeat' (first | split | (dsimp only; split))
  all_goals rfl

theorem login_blacklist (checkpw : String → String → Bool) (body : LoginBody)
    (st : ServerState) :
    (login checkpw body st).2.blacklist = st.blacklist := by
  unfold login
  repeat' (first | split | (dsimp only; split))
  all_goals rfl

theorem refresh_blacklist (c : Claims) (st : ServerState) :
    (refresh_token c st).2.blacklist = st.blacklist := by
  unfold refresh_token
  repeat' (first | split | (dsimp only; split))
  all_goals rfl

theorem get_profile_blacklist (c : Claims) (st : ServerState) :
    (get_profile c st).2.blacklist = st.blacklist := by
  unfold get_profile
  repeat' (first | split | (dsimp only; split))
  all_goals rfl

theorem get_roadmaps_blacklist (c : Claims) (st : ServerState) :
    (get_roadmaps c st).2.blacklist = st.blacklist := by
  unfold get_roadmaps
  repeat' (first | split | (dsimp only; split))
  all_goals rfl

theorem create_roadmap_blacklist (c : Claims) (new_id : String)
    (data : RoadmapData) (st : ServerState) :
    (create_roadmap c new_id data st).2.blacklist = st.blacklist := by
  unfold create_roadmap
  repeat' (first | split | (dsimp only; split))
  all_goals rfl

theorem get_roadmap_blacklist (c : Claims) (rid : String) (st : ServerState) :
    (get_roadmap c rid st).2.blacklist = st.blacklist := by
  unfold get_roadmap
  repeat' (first | split | (dsimp only; split))
  all_goals rfl

theorem update_roadmap_blacklist (c : Claims) (rid : String)
    (patch : Roadmap → Roadmap) (st : ServerState) :
    (update_roadmap c rid patch st).2.blacklist = st.blacklist := by
  unfold update_roadmap
  repeat' (first | split | (dsimp only; split))
  all_goals rfl

theorem delete_roadmap_blacklist (c : Claims) (rid : String) (st : ServerState) :
    (delete_roadmap c rid st).2.blacklist = st.blacklist := by
  unfold delete_roadmap
  repeat' (first | split | (dsimp only; split))
  all_goals rfl

theorem toggle_blacklist (c : Claims) (rid nid : String) (st : ServerState) :
    (toggle_node_completion c rid nid st).2.blacklist = st.blacklist := by
  unfold toggle_node_completion
  repeat' (first | split | (dsimp only; split))
  all_goals rfl

theorem admin_roadmaps_blacklist (st : ServerState) :
    (get_all_roadmaps_admin st).2.blacklist = st.blacklist := by
  unfold get_all_roadmaps_admin
  repeat' (first | split | (dsimp only; split))
  all_goals rfl

theorem force_delete_blacklist (rid : String) (st : ServerState) :
    (force_delete_roadmap rid st).2.blacklist = st.blacklist := by
  unfold force_delete_roadmap
  repeat' (first | split | (dsimp only; split))
  all_goals rfl

theorem all_users_blacklist (st : ServerState) :
    (get_all_users st).2.blacklist = st.blacklist := by
  unfold get_all_users
  repeat' (first | split | (dsimp only; split))
  all_goals rfl

theorem token_required_blacklist {α : Type} (tok : TokenPresentation)
    (f : Claims → ServerState → HResp α × ServerState) (st : ServerState)
    (hf : ∀ c s, (f c s).2.blacklist = s.blacklist) :
    (token_required tok f st).2.blacklist = st.blacklist := by
  cases tok with
  | missing => rfl
  | invalid => rfl
  | valid c =>
    unfold token_required
    by_cases h : is_token_revoked st.blacklist c <;> simp [h, hf]

theorem admin_required_blacklist {α : Type} (tok : TokenPresentation)
    (f : ServerState → HResp α × ServerState) (st : ServerState)
    (hf : ∀ s, (f s).2.blacklist = s.blacklist) :
    (admin_required tok f st).2.blacklist = st.blacklist := by
  cases tok with
  | missing => rfl
  | invalid => rfl
  | valid c =>
    unfold admin_required
    by_cases h : is_token_revoked st.blacklist c <;>
      by_cases h2 : c.role != "admin" <;> simp [h, h2, hf]

/-- No request handler ever removes an entry from the revocation set. -/
theorem applyOp_blacklist_mono (op : Op) (st : ServerState) :
    st.blacklist ⊆ (applyOp op st).blacklist := by
  cases op with
  | opSignup hashpw new_id body => rw [applyOp, signup_blacklist]
  | opLogin checkpw body => rw [applyOp, login_blacklist]
  | opLogout tok =>
    cases tok with
    | missing => rw [applyOp]; exact Finset.Subset.refl _
    | invalid => rw [applyOp]; exact Finset.Subset.refl _
    | validRefresh c => rw [applyOp]; exact Finset.Subset.refl _
    | validAccess c =>
      show st.blacklist ⊆ (logout c st).2.blacklist
      exact Finset.subset_insert _ _
  | opRefresh tok =>
    rw [applyOp]
    cases tok with
    | missing => exact Finset.Subset.refl _
    | invalid => exact Finset.Subset.refl _
    | validRefresh c => exact Finset.Subset.refl _
    | validAccess c =>
      rw [show ep_refresh (.validAccess c) st = refresh_token c st from rfl, refresh_blacklist]
  | opGetProfile tok =>
    rw [applyOp, show ep_get_profile tok st = token_required tok get_profile st from rfl,
      token_required_blacklist tok _ st (fun c s => get_profile_blacklist c s)]
  | opGetRoadmaps tok =>
    rw [applyOp, show ep_get_roadmaps tok st = token_required tok get_roadmaps st from rfl,
      token_required_blacklist tok _ st (fun c s => get_roadmaps_blacklist c s)]
  | opCreateRoadmap tok new_id data =>
    rw [applyOp, show ep_create_roadmap tok new_id data st
        = token_required tok (fun c => create_roadmap c new_id data) st from rfl,
      token_required_blacklist tok _ st (fun c s => create_roadmap_blacklist c new_id data s)]
  | opGetRoadmap tok rid =>
    rw [applyOp, show ep_get_roadmap tok rid st
        = token_required tok (fun c => get_roadmap c rid) st from rfl,
      token_required_blacklist tok _ st (fun c s => get_roadmap_blacklist c rid s)]
  | opUpdateRoadmap tok rid patch =>
    rw [applyOp, show ep_update_roadmap tok rid patch st
        = token_required tok (fun c => update_roadmap c rid patch) st from rfl,
      token_required_blacklist tok _ st (fun c s => update_roadmap_blacklist c rid patch s)]
  | opDeleteRoadmap tok rid =>
    rw [applyOp, show ep_delete_roadmap tok rid st
        = token_required tok (fun c => delete_roadmap c rid) st from rfl,
      token_required_blacklist tok _ st (fun c s => delete_roadmap_blacklist c rid s)]
  | opToggleNode tok rid nid =>
    rw [applyOp, show ep_toggle_node tok rid nid st
        = token_required tok (fun c => toggle_node_completion c rid nid) st from rfl,
      token_required_blacklist tok _ st (fun c s => toggle_blacklist c rid nid s)]
  | opAdminRoadmaps tok =>
    rw [applyOp, show ep_admin_roadmaps tok st
        = admin_required tok get_all_roadmaps_admin st from rfl,
      admin_required_blacklist tok _ st (fun s => admin_roadmaps_blacklist s)]
  | opAdminUsers tok =>
    rw [applyOp, show ep_admin_users tok st = admin_required tok get_all_users st from rfl,
      admin_required_blacklist tok _ st (fun s => all_users_blacklist s)]
  | opForceDelete tok rid =>
    rw [applyOp, show ep_force_delete tok rid st
        = admin_required tok (force_delete_roadmap rid) st from rfl,
      admin_required_blacklist tok _ st (fun s => force_delete_blacklist rid s)]

/-- Revocation entries survive any sequence of requests. -/
theorem applyAll_blacklist_mono (ops : List Op) (st : ServerState) :
    st.blacklist ⊆ (applyAll ops st).blacklist := by
  induction ops generalizing st with
  | nil => exact Finset.Subset.refl _
  | cons op ops ih =>
    have h1 : applyAll (op :: ops) st = applyAll ops (applyOp op st) := rfl
    rw [h1]
    exact Finset.Subset.trans (applyOp_blacklist_mono op st) (ih (applyOp op st))

/-! ### Claim theorems -/

set_option maxHeartbeats 1600000 in
/-- C7: `validate_password` accepts exactly the passwords of length ≥ 8
containing an uppercase letter, a lowercase letter, a digit and a symbol
from the defined punctuation set; on rejection the reason names the first
failing rule in the fixed order length, uppercase, lowercase, digit,
symbol; and the six example passwords behave as the spec lists. -/
theorem validate_password_spec :
    (∀ p : String,
      validate_password p = (true, "Password is valid") ↔
        (8 ≤ p.length ∧
         p.toList.any (fun c => 'A' ≤ c && c ≤ 'Z') = true ∧
         p.toList.any (fun c => 'a' ≤ c && c ≤ 'z') = true ∧
         p.toList.any (fun c => '0' ≤ c && c ≤ '9') = true ∧
         p.toList.any (fun c => specialChars.contains c) = true)) ∧
    (∀ p : String,
      validate_password p = (false, "Password must be at least 8 characters long") ↔
        p.length < 8) ∧
    (∀ p : String,
      validate_password p = (false, "Password must contain at least one uppercase letter") ↔
        (8 ≤ p.length ∧
         p.toList.any (fun c => 'A' ≤ c && c ≤ 'Z') = false)) ∧
    (∀ p : String,
      validate_password p = (false, "Password must contain at least one lowercase letter") ↔
        (8 ≤ p.length ∧
         p.toList.any (fun c => 'A' ≤ c && c ≤ 'Z') = true ∧
         p.toList.any (fun c => 'a' ≤ c && c ≤ 'z') = false)) ∧
    (∀ p : String,
      validate_password p = (false, "Password must contain at least one digit") ↔
        (8 ≤ p.length ∧
         p.toList.any (fun c => 'A' ≤ c && c ≤ 'Z') = true ∧
         p.toList.any (fun c => 'a' ≤ c && c ≤ 'z') = true ∧
         p.toList.any (fun c => '0' ≤ c && c ≤ '9') = false)) ∧
    (∀ p : String,
      validate_password p = (false, "Password must contain at least one special character") ↔
        (8 ≤ p.length ∧
         p.toList.any (fun c => 'A' ≤ c && c ≤ 'Z') = true ∧
         p.toList.any (fun c => 'a' ≤ c && c ≤ 'z') = true ∧
         p.toList.any (fun c => '0' ≤ c && c ≤ '9') = true ∧
         p.toList.any (fun c => specialChars.contains c) = false)) ∧
    validate_password "short1!" = (false, "Password must be at least 8 characters long") ∧
    validate_password "alllowercase1!" = (false, "Password must contain at least one uppercase letter") ∧
    validate_password "ALLUPPER1!" = (false, "Password must contain at least one lowercase letter") ∧
    validate_password "NoDigits!" = (false, "Password must contain at least one digit") ∧
    validate_password "NoSymbol1" = (false, "Password must contain at least one special character") ∧
    validate_password "Valid1Pass!" = (true, "Password is valid") := by
  refine ⟨?_, ?_, ?_, ?_, ?_, ?_,
    by decide, by decide, by decide, by decide, by decide, by decide⟩ <;>
    intro p <;> unfold validate_password <;>
    split_ifs with h1 h2 h3 h4 h5 <;> simp_all

/-- C1: every refresh request bearing a refresh-type token — in
particular one whose jti has been revoked — is rejected (422, the
`@jwt_required()` type verification fires before the handler) and no new
access token is issued; hence "refreshAccess succeeds only if the
presented refresh token decodes and is unrevoked" holds, the only-if
direction vacuously, since no refresh-type token ever reaches the
handler at this route. -/
theorem refresh_rejects_refresh_tokens :
    (∀ (c : Claims) (st : ServerState),
       ep_refresh (.validRefresh c) st
         = (.err 422 "Only non-refresh tokens are allowed", st)) ∧
    (∀ (c : Claims) (st : ServerState), is_token_revoked st.blacklist c = true →
       ∀ (t : IssuedToken) (st2 : ServerState),
         ep_refresh (.validRefresh c) st ≠ (.ok t, st2)) := by
  constructor
  · intro c st
    rfl
  · intro c st hrev t st2 hcontra
    rw [show ep_refresh (.validRefresh c) st
        = (.err 422 "Only non-refresh tokens are allowed", st) from rfl] at hcontra
    exact HResp.noConfusion (congrArg Prod.fst hcontra)

/-- Witness for C1: a revoked refresh token (jti1 is in the registry) is
rejected by the refresh route and obtains no access token. -/
theorem refresh_rejects_refresh_tokens_witness :
    ep_refresh (.validRefresh ⟨"u1", "user", "jti1"⟩)
      ⟨true, [⟨"u1", "alice", "alice@example.com", "h", "user"⟩], [], revoke_token "jti1" ∅⟩
      = (.err 422 "Only non-refresh tokens are allowed",
         ⟨true, [⟨"u1", "alice", "alice@example.com", "h", "user"⟩], [], revoke_token "jti1" ∅⟩) ∧
    ep_refresh (.validRefresh ⟨"u1", "user", "jti1"⟩)
      ⟨true, [⟨"u1", "alice", "alice@example.com", "h", "user"⟩], [], revoke_token "jti1" ∅⟩
      ≠ (.ok ⟨"u1", "user"⟩,
         ⟨true, [⟨"u1", "alice", "alice@example.com", "h", "user"⟩], [], revoke_token "jti1" ∅⟩) := by
  constructor
  · exact refresh_rejects_refresh_tokens.1 ⟨"u1", "user", "jti1"⟩
      ⟨true, [⟨"u1", "alice", "alice@example.com", "h", "user"⟩], [], revoke_token "jti1" ∅⟩
  · exact refresh_rejects_refresh_tokens.2 ⟨"u1", "user", "jti1"⟩
      ⟨true, [⟨"u1", "alice", "alice@example.com", "h", "user"⟩], [], revoke_token "jti1" ∅⟩
      (by decide) ⟨"u1", "user"⟩
      ⟨true, [⟨"u1", "alice", "alice@example.com", "h", "user"⟩], [], revoke_token "jti1" ∅⟩

/-- C2: whenever signup succeeds, the stored user's role and the role in
both issued tokens are exactly the supplied `role` field verbatim (any
string, no validation against the user/admin enumeration), defaulting to
"user" when absent.  `signup` takes no token or principal: the route is
unauthenticated. -/
theorem signup_role_verbatim (hashpw : String → String) (new_id : String)
    (body : SignupBody) (st : ServerState) (u : UserOut) (a r : IssuedToken)
    (st2 : ServerState)
    (h : signup hashpw new_id body st = (.ok (u, a, r), st2)) :
    u.role = body.role.getD "user" ∧
    a.role = body.role.getD "user" ∧
    r.role = body.role.getD "user" ∧
    st2.users = st.users ++
      [⟨new_id, strip body.username, lower (strip body.email), hashpw body.password,
        body.role.getD "user"⟩] := by
  unfold signup at h
  repeat' (first | split at h | (dsimp only at h; split at h))
  all_goals simp only [Prod.mk.injEq] at h
  all_goals (try exact (HResp.noConfusion h.1))
  obtain ⟨h1, h2⟩ := h
  simp only [generate_tokens, create_access_token, create_refresh_token,
    HResp.ok.injEq, Prod.mk.injEq] at h1
  obtain ⟨hu, ha, hr⟩ := h1
  subst hu ha hr
  refine ⟨rfl, rfl, rfl, ?_⟩
  rw [← h2]

/-- Witness for C2: an unauthenticated signup carrying role "admin"
creates an admin user and admin-role tokens. -/
theorem signup_role_verbatim_witness :
    (⟨"id1", "alice", "alice@example.com", "admin"⟩ : UserOut).role
      = (some "admin").getD "user" ∧
    (⟨"id1", "admin"⟩ : IssuedToken).role = (some "admin").getD "user" ∧
    (⟨"id1", "admin"⟩ : IssuedToken).role = (some "admin").getD "user" ∧
    (⟨true, [⟨"id1", "alice", "alice@example.com", "Valid1Pass!", "admin"⟩], [], ∅⟩ : ServerState).users
      = ([] : List User) ++
        [⟨"id1", "alice", "alice@example.com", "Valid1Pass!", "admin"⟩] := by
  have h : signup (fun p => p) "id1"
      ⟨"alice", "alice@example.com", "Valid1Pass!", some "admin"⟩
      ⟨true, [], [], ∅⟩
      = (.ok (⟨"id1", "alice", "alice@example.com", "admin"⟩,
              ⟨"id1", "admin"⟩, ⟨"id1", "admin"⟩),
         ⟨true, [⟨"id1", "alice", "alice@example.com", "Valid1Pass!", "admin"⟩], [], ∅⟩) := by
    decide
  exact signup_role_verbatim (fun p => p) "id1"
    ⟨"alice", "alice@example.com", "Valid1Pass!", some "admin"⟩
    ⟨true, [], [], ∅⟩ _ _ _ _ h

/-- The refresh handler body (lines 637-646) does read the role from the
live user record and answers 404 for a vanished user — but because of the
type verification in the decorator it is reachable only by access-token
requests, never by the refresh tokens C3 is about. -/
theorem refresh_token_reads_live_role (claims : Claims) (st : ServerState)
    (hdb : st.db = true) :
    (∀ user : User, st.users.find? (fun u => u.id == claims.sub) = some user →
       refresh_token claims st = (.ok ⟨claims.sub, user.role⟩, st)) ∧
    (st.users.find? (fun u => u.id == claims.sub) = none →
       refresh_token claims st = (.err 404 "User not found", st)) := by
  constructor
  · intro user hfind
    unfold refresh_token
    rw [hdb]
    simp [hfind, create_access_token]
  · intro hfind
    unfold refresh_token
    rw [hdb]
    simp [hfind]

/-- C3: the claim FAILS on the code.  A refresh request bearing a valid
refresh token is rejected with 422 by `@jwt_required()`'s token-type
verification (no `refresh=True` in the source) before the handler runs:
in the stale-role scenario (token role "user", stored role "admin") no
new access token carrying the current role is issued, and a vanished
user yields 422, not the claimed 404. -/
theorem refresh_stale_role_unreachable :
    ep_refresh (.validRefresh ⟨"u1", "user", "j1"⟩)
      ⟨true, [⟨"u1", "alice", "alice@example.com", "h", "admin"⟩], [], ∅⟩
      = (.err 422 "Only non-refresh tokens are allowed",
         ⟨true, [⟨"u1", "alice", "alice@example.com", "h", "admin"⟩], [], ∅⟩) ∧
    ep_refresh (.validRefresh ⟨"u2", "admin", "j2"⟩)
      ⟨true, [⟨"u1", "alice", "alice@example.com", "h", "admin"⟩], [], ∅⟩
      = (.err 422 "Only non-refresh tokens are allowed",
         ⟨true, [⟨"u1", "alice", "alice@example.com", "h", "admin"⟩], [], ∅⟩) :=
  ⟨rfl, rfl⟩

/-- C4: once a jti is revoked, after any sequence of further requests both
`token_required` and `admin_required` reject a token carrying that jti
with 401 "Token has been revoked", leaving the state unchanged and never
invoking the wrapped handler (the result is the same for every handler
`f`/`g`), even though the token still decodes (it is presented as
`.valid`). -/
theorem revoked_jti_rejected_forever {α β : Type}
    (st : ServerState) (jti : String) (ops : List Op) (c : Claims)
    (hj : c.jti = jti)
    (f : Claims → ServerState → HResp α × ServerState)
    (g : ServerState → HResp β × ServerState) :
    token_required (.valid c) f
        (applyAll ops { st with blacklist := revoke_token jti st.blacklist })
      = (.err 401 "Token has been revoked",
         applyAll ops { st with blacklist := revoke_token jti st.blacklist }) ∧
    admin_required (.valid c) g
        (applyAll ops { st with blacklist := revoke_token jti st.blacklist })
      = (.err 401 "Token has been revoked",
         applyAll ops { st with blacklist := revoke_token jti st.blacklist }) := by
  subst hj
  have hmem : c.jti ∈
      (applyAll ops { st with blacklist := revoke_token c.jti st.blacklist }).blacklist :=
    applyAll_blacklist_mono ops _ (Finset.mem_insert_self _ _)
  have hrev : is_token_revoked
      (applyAll ops { st with blacklist := revoke_token c.jti st.blacklist }).blacklist c
      = true := by simp [is_token_revoked, hmem]
  constructor
  · unfold token_required
    simp [hrev]
  · unfold admin_required
    simp [hrev]

/-- Witness for C4: jti "j" revoked, then another user logs out; a token
carrying "j" is still rejected by both middlewares. -/
theorem revoked_jti_rejected_forever_witness :
    token_required (.valid ⟨"u2", "admin", "j"⟩) (fun _ s => (.ok (0 : Nat), s))
      (applyAll [.opLogout (.validAccess ⟨"u3", "user", "k"⟩)] ⟨true, [], [], revoke_token "j" ∅⟩)
      = (.err 401 "Token has been revoked",
         applyAll [.opLogout (.validAccess ⟨"u3", "user", "k"⟩)] ⟨true, [], [], revoke_token "j" ∅⟩) ∧
    admin_required (.valid ⟨"u2", "admin", "j"⟩) (fun s => (.ok (0 : Nat), s))
      (applyAll [.opLogout (.validAccess ⟨"u3", "user", "k"⟩)] ⟨true, [], [], revoke_token "j" ∅⟩)
      = (.err 401 "Token has been revoked",
         applyAll [.opLogout (.validAccess ⟨"u3", "user", "k"⟩)] ⟨true, [], [], revoke_token "j" ∅⟩) :=
  revoked_jti_rejected_forever ⟨true, [], [], ∅⟩ "j"
    [.opLogout (.validAccess ⟨"u3", "user", "k"⟩)] ⟨"u2", "admin", "j"⟩ rfl
    (fun _ s => (.ok (0 : Nat), s)) (fun s => (.ok (0 : Nat), s))

/-- C8: a login with an email not in the store and a login with a stored
email but non-matching password produce literally the same response:
401 with the identical message "Invalid email or password". -/
theorem login_enumeration_safe (checkpw : String → String → Bool)
    (st : ServerState) (body1 body2 : LoginBody) (u : User)
    (hdb : st.db = true)
    (h1 : st.users.find? (fun x => x.email == lower (strip body1.email)) = none)
    (h2 : st.users.find? (fun x => x.email == lower (strip body2.email)) = some u)
    (h3 : checkpw body2.password u.password = false) :
    login checkpw body1 st = (.err 401 "Invalid email or password", st) ∧
    login checkpw body2 st = (.err 401 "Invalid email or password", st) ∧
    login checkpw body1 st = login checkpw body2 st := by
  have e1 : login checkpw body1 st = (.err 401 "Invalid email or password", st) := by
    unfold login
    rw [hdb]
    dsimp only
    simp [h1]
  have e2 : login checkpw body2 st = (.err 401 "Invalid email or password", st) := by
    unfold login
    rw [hdb]
    dsimp only
    simp [h2, h3]
  exact ⟨e1, e2, by rw [e1, e2]⟩

/-- Witness for C8: unknown email vs. wrong password for bob's account
give indistinguishable responses. -/
theorem login_enumeration_safe_witness :
    login (fun _ _ => false) ⟨"nobody@x.com", "whatever"⟩
      ⟨true, [⟨"u1", "bob", "bob@x.com", "hashed", "user"⟩], [], ∅⟩
      = (.err 401 "Invalid email or password",
         ⟨true, [⟨"u1", "bob", "bob@x.com", "hashed", "user"⟩], [], ∅⟩) ∧
    login (fun _ _ => false) ⟨"bob@x.com", "wrongpw"⟩
      ⟨true, [⟨"u1", "bob", "bob@x.com", "hashed", "user"⟩], [], ∅⟩
      = (.err 401 "Invalid email or password",
         ⟨true, [⟨"u1", "bob", "bob@x.com", "hashed", "user"⟩], [], ∅⟩) ∧
    login (fun _ _ => false) ⟨"nobody@x.com", "whatever"⟩
      ⟨true, [⟨"u1", "bob", "bob@x.com", "hashed", "user"⟩], [], ∅⟩
      = login (fun _ _ => false) ⟨"bob@x.com", "wrongpw"⟩
        ⟨true, [⟨"u1", "bob", "bob@x.com", "hashed", "user"⟩], [], ∅⟩ :=
  login_enumeration_safe (fun _ _ => false)
    ⟨true, [⟨"u1", "bob", "bob@x.com", "hashed", "user"⟩], [], ∅⟩
    ⟨"nobody@x.com", "whatever"⟩ ⟨"bob@x.com", "wrongpw"⟩
    ⟨"u1", "bob", "bob@x.com", "hashed", "user"⟩
    rfl (by decide) (by decide) rfl

/-- C9: with a valid, unrevoked token, every `admin_required` route
(admin roadmap listing, admin user listing, force-delete) runs its
handler exactly when the role claim is "admin"; otherwise the response
is 403 "Admin access required" for every possible handler (so the
handler is never invoked), regardless of any resource ownership. -/
theorem admin_only_gating (c : Claims) (st : ServerState)
    (hrev : is_token_revoked st.blacklist c = false) :
    (c.role ≠ "admin" →
       (∀ (α : Type) (g : ServerState → HResp α × ServerState),
          admin_required (.valid c) g st = (.err 403 "Admin access required", st)) ∧
       ep_admin_roadmaps (.valid c) st = (.err 403 "Admin access required", st) ∧
       ep_admin_users (.valid c) st = (.err 403 "Admin access required", st) ∧
       (∀ roadmap_id, ep_force_delete (.valid c) roadmap_id st
          = (.err 403 "Admin access required", st))) ∧
    (c.role = "admin" →
       ∀ (α : Type) (g : ServerState → HResp α × ServerState),
         admin_required (.valid c) g st = g st) := by
  constructor
  · intro hna
    have key : ∀ (α : Type) (g : ServerState → HResp α × ServerState),
        admin_required (.valid c) g st = (.err 403 "Admin access required", st) := by
      intro α g
      unfold admin_required
      simp [hrev, hna]
    exact ⟨key, key _ _, key _ _, fun rid => key _ _⟩
  · intro ha α g
    unfold admin_required
    simp [hrev, ha]

/-- Witness for C9: a non-admin is rejected from the admin listing and
the force-delete route; an admin's handler runs. -/
theorem admin_only_gating_witness :
    ep_admin_roadmaps (.valid ⟨"u1", "user", "j1"⟩) ⟨true, [], [], ∅⟩
      = (.err 403 "Admin access required", ⟨true, [], [], ∅⟩) ∧
    ep_force_delete (.valid ⟨"u1", "user", "j1"⟩) "r1" ⟨true, [], [], ∅⟩
      = (.err 403 "Admin access required", ⟨true, [], [], ∅⟩) ∧
    admin_required (.valid ⟨"u2", "admin", "j2"⟩)
      (fun s => (.ok (0 : Nat), s)) ⟨true, [], [], ∅⟩
      = (.ok 0, ⟨true, [], [], ∅⟩) := by
  refine ⟨?_, ?_, ?_⟩
  · exact ((admin_only_gating ⟨"u1", "user", "j1"⟩ ⟨true, [], [], ∅⟩
      (by decide)).1 (by decide)).2.1
  · exact ((admin_only_gating ⟨"u1", "user", "j1"⟩ ⟨true, [], [], ∅⟩
      (by decide)).1 (by decide)).2.2.2 "r1"
  · exact (admin_only_gating ⟨"u2", "admin", "j2"⟩ ⟨true, [], [], ∅⟩
      (by decide)).2 rfl Nat (fun s => (.ok (0 : Nat), s))

/-- C10: `revoke_token` is idempotent, a revoked jti tests revoked, and
no request handler ever removes an entry from the registry: membership is
preserved by every sequence of operations. -/
theorem revocation_monotone_idempotent (jti : String) (bl : Finset String)
    (c : Claims) (st : ServerState) (ops : List Op) :
    revoke_token jti (revoke_token jti bl) = revoke_token jti bl ∧
    (c.jti = jti → is_token_revoked (revoke_token jti bl) c = true) ∧
    (jti ∈ st.blacklist → jti ∈ (applyAll ops st).blacklist) := by
  refine ⟨Finset.insert_idem jti bl, ?_, ?_⟩
  · intro h
    simp [is_token_revoked, revoke_token, h]
  · intro h
    exact applyAll_blacklist_mono ops st h

/-- Witness for C10 at concrete values, running one further logout after
the revocation. -/
theorem revocation_monotone_idempotent_witness :
    revoke_token "j" (revoke_token "j" ∅) = revoke_token "j" ∅ ∧
    is_token_revoked (revoke_token "j" ∅) ⟨"u", "user", "j"⟩ = true ∧
    "j" ∈ (applyAll [.opLogout (.validAccess ⟨"v", "user", "k"⟩)]
      ⟨true, [], [], revoke_token "j" ∅⟩).blacklist := by
  obtain ⟨ha, hb, hc⟩ := revocation_monotone_idempotent "j" (∅ : Finset String)
    ⟨"u", "user", "j"⟩ ⟨true, [], [], revoke_token "j" ∅⟩
    [.opLogout (.validAccess ⟨"v", "user", "k"⟩)]
  exact ⟨ha, hb rfl, hc (by decide)⟩

end RoadmapApp
